import Mathlib

/-!
Shallow embedding of the NoProto bool codec, pointer-cell layouts and cursor
machinery (src/pointer/bool.rs and src/pointer/mod.rs).  The memory arena and
the buffer front end live outside the sampled core (memory.rs, buffer.rs), so
those primitives are modelled from the spec and say so in their doc comments.
Machine bytes are represented as `Nat` values intended to be below 256; 16-bit
addresses are reduced modulo 2^16 where the code truncates.
-/

deriving instance DecidableEq for Except

/-- Error kinds surfaced by buffer operations (spec section 7). -/
inductive NP_Error
  | outOfSpace
  | corrupt
  | generic (msg : String)
deriving DecidableEq

/-- Modelled from the spec: the memory arena of section 4.2 (memory.rs is not
part of the sampled core).  It owns the raw buffer bytes and the capacity
bound, which is 65,535 in the library because the address space is 16 bits. -/
structure NP_Memory where
  bytes : List Nat
  max_size : Nat
deriving DecidableEq

/-- Modelled from the spec: bounds-checked single-byte read; yields `none`
past the end of the buffer instead of failing. -/
def NP_Memory.get_1_byte (m : NP_Memory) (address : Nat) : Option Nat :=
  m.bytes.get? address

/-- Modelled from the spec: `malloc_borrow` bump-allocates a copy of the given
bytes at the end of the arena and returns the starting offset; it fails with
`OutOfSpace` when the allocation would exceed the capacity, in which case the
arena is returned untouched. -/
def NP_Memory.malloc_borrow (m : NP_Memory) (data : List Nat) :
    Except NP_Error Nat × NP_Memory :=
  if m.bytes.length + data.length > m.max_size then
    (Except.error NP_Error.outOfSpace, m)
  else
    (Except.ok m.bytes.length, { m with bytes := m.bytes ++ data })

/-- Modelled from the spec: `write_address` stores a 16-bit big-endian address
at the given offset (the value is truncated to 16 bits as the code casts to
`u16`). -/
def NP_Memory.write_address (m : NP_Memory) (addr : Nat) (value : Nat) : NP_Memory :=
  { m with bytes := ((m.bytes.set addr (value % 65536 / 256)).set (addr + 1) (value % 256)) }

/-- Modelled from the spec: read a 16-bit big-endian address at the given
offset; bytes outside the buffer read as zero. -/
def NP_Memory.read_address (m : NP_Memory) (addr : Nat) : Nat :=
  (m.bytes.getD addr 0) * 256 + m.bytes.getD (addr + 1) 0

/-- The three fixed pointer-cell shapes of src/pointer/mod.rs:
`NP_Pointer_Scalar`, `NP_Pointer_List_Item` and `NP_Pointer_Map_Item`. -/
inductive PtrShape
  | scalar
  | listItem
  | mapItem
deriving DecidableEq

/-- Pointer-cell size of each shape: the `get_size` implementations at
mod.rs lines 95, 113 and 131 return 2, 5 and 8 bytes. -/
def PtrShape.size : PtrShape → Nat
  | PtrShape.scalar => 2
  | PtrShape.listItem => 5
  | PtrShape.mapItem => 8

/-- Parsed schema nodes (`NP_Parsed_Schema`), restricted to the constructors
the sampled core dispatches on; every other scalar kind is collapsed into
`OtherScalar`, which the sampled code treats uniformly. -/
inductive NP_Parsed_Schema
  | Boolean (defaultValue : Option Bool)
  | Table (columns : List (String × Nat))
  | List (of : Nat)
  | Map (value : Nat)
  | Tuple (values : List Nat)
  | OtherScalar
deriving DecidableEq

/-- The parsed view over a pointer cell (`cursor.value` in bool.rs): its shape
together with the big-endian `addr_value` it currently holds. -/
structure NP_Cursor_Value where
  shape : PtrShape
  value_address : Nat
deriving DecidableEq

/-- Accessor matching `get_value_address` in bool.rs. -/
def NP_Cursor_Value.get_value_address (v : NP_Cursor_Value) : Nat :=
  v.value_address

/-- Functional update matching `update_value_address` in bool.rs. -/
def NP_Cursor_Value.update_value_address (v : NP_Cursor_Value) (addr : Nat) : NP_Cursor_Value :=
  { v with value_address := addr }

/-- Cursor over a pointer value in the buffer (mod.rs `NP_Cursor`), restricted
to the fields the scalar codecs read. -/
structure NP_Cursor where
  buff_addr : Nat
  schema_addr : Nat
  value : NP_Cursor_Value
deriving DecidableEq

/-- A cursor address in memory (mod.rs `NP_Cursor_Addr`): virtual or real. -/
inductive NP_Cursor_Addr
  | Virtual
  | Real (addr : Nat)
deriving DecidableEq

/-- Result of a mutating operation: success with the updated cursor and
memory, an error together with the memory as the operation left it, or a
panic of the underlying Rust code (out-of-bounds slice indexing or an
explicit `panic`/`unreachable` guard). -/
inductive SetResult
  | ok (cursor : NP_Cursor) (memory : NP_Memory)
  | err (e : NP_Error) (memory : NP_Memory)
  | panicked (memory : NP_Memory)
deriving DecidableEq

/-- `bool::set_value` (bool.rs lines 72-103): when `addr_value` is nonzero the
single payload byte is overwritten in place (the Rust slice write
`memory.write_bytes()[value_address] = …` panics when the address is outside
the buffer); otherwise one byte holding 1 for true and 0 for false is
allocated, the cursor view is updated and the new address is written into the
pointer cell at `cursor.buff_addr`. -/
def bool_set_value (cursor : NP_Cursor) (memory : NP_Memory) (value : Bool) : SetResult :=
  let value_address := cursor.value.get_value_address
  if value_address ≠ 0 then
    if value_address < memory.bytes.length then
      SetResult.ok cursor
        { memory with bytes := memory.bytes.set value_address (if value then 1 else 0) }
    else
      SetResult.panicked memory
  else
    match memory.malloc_borrow [if value then 1 else 0] with
    | (Except.error e, m2) => SetResult.err e m2
    | (Except.ok addr, m2) =>
        SetResult.ok { cursor with value := cursor.value.update_value_address addr }
          (m2.write_address cursor.buff_addr addr)

/-- `bool::into_value` (bool.rs lines 105-120): `none` when `addr_value` is 0;
otherwise the payload byte is decoded, 1 as true and anything else as false;
an address past the end of the buffer also reads as `none`.  The function
never produces an error. -/
def bool_into_value (cursor : NP_Cursor) (memory : NP_Memory) :
    Except NP_Error (Option Bool) :=
  let value_addr := cursor.value.get_value_address
  if value_addr = 0 then
    Except.ok none
  else
    match memory.get_1_byte value_addr with
    | some x => Except.ok (some (x == 1))
    | none => Except.ok none

/-- `bool::schema_default` (bool.rs lines 59-70); the source marks the
non-Boolean branch as unreachable. -/
def bool_schema_default (schema : NP_Parsed_Schema) : Option Bool :=
  match schema with
  | NP_Parsed_Schema.Boolean d => d
  | _ => none

/-- `bool::get_size` (bool.rs lines 158-165): 0 when no value is allocated,
otherwise the one payload byte. -/
def bool_get_size (cursor : NP_Cursor) : Nat :=
  if cursor.value.get_value_address = 0 then 0 else 1

/-- The fragment of `NP_JSON` the bool schema parser inspects. -/
inductive NP_JSON
  | jtrue
  | jfalse
  | jnull
  | jnumber (n : Int)
  | jstring (s : String)
deriving DecidableEq

/-- Modelled from the spec: the redundant one-byte type key for bool written
by `from_json_to_schema`; the numeric enumeration lives in schema.rs, outside
the sampled core. -/
def boolean_type_key : Nat := 15

/-- `bool::from_json_to_schema` (bool.rs lines 167-195), applied to the
`"default"` field of the JSON schema object: emits the type-key byte followed
by the default byte (2 for a false default, 1 for a true default, 0 when no
default) and appends the parsed Boolean node. -/
def bool_from_json_to_schema (schema : List NP_Parsed_Schema) (json_default : NP_JSON) :
    Except NP_Error (Bool × List Nat × List NP_Parsed_Schema) :=
  let parsed_default : Nat × Option Bool :=
    match json_default with
    | NP_JSON.jfalse => (2, some false)
    | NP_JSON.jtrue => (1, some true)
    | _ => (0, none)
  Except.ok (true, [boolean_type_key, parsed_default.1],
    schema ++ [NP_Parsed_Schema.Boolean parsed_default.2])

/-- `bool::from_bytes_to_schema` (bool.rs lines 196-208): default byte 0 means
no default, 1 default true, 2 default false; any other byte hits the source's
`unreachable` arm, modelled as `none` (a panic), as is an out-of-bounds
`bytes[address]` index. -/
def bool_from_bytes_to_schema (schema : List NP_Parsed_Schema) (address : Nat)
    (bytes : List Nat) : Option (Bool × List NP_Parsed_Schema) :=
  match bytes.get? address with
  | none => none
  | some 0 => some (true, schema ++ [NP_Parsed_Schema.Boolean none])
  | some 1 => some (true, schema ++ [NP_Parsed_Schema.Boolean (some true)])
  | some 2 => some (true, schema ++ [NP_Parsed_Schema.Boolean (some false)])
  | some _ => none

/-- The default implementation of `NP_Value::do_compact` (mod.rs lines
565-575) instantiated at bool: read the source value, write it into the
destination when present, otherwise return the destination cursor unchanged;
a read error propagates. -/
def bool_do_compact (from_cursor : NP_Cursor) (from_memory : NP_Memory)
    (to_cursor : NP_Cursor) (to_memory : NP_Memory) : SetResult :=
  match bool_into_value from_cursor from_memory with
  | Except.error e => SetResult.err e to_memory
  | Except.ok (some x) => bool_set_value to_cursor to_memory x
  | Except.ok none => SetResult.ok to_cursor to_memory

/-- A fresh empty buffer for a scalar root: four header bytes, all zero (root
pointer 0 means the root value is absent), with the library's 16-bit
capacity. -/
def empty_bool_buffer : NP_Memory :=
  { bytes := [0, 0, 0, 0], max_size := 65535 }

/-- Modelled from the spec: the root pointer cell occupies bytes [0..2] of the
buffer header (section 3.1), so the root cursor is a scalar-shaped pointer
view at offset 0 whose `addr_value` is read big-endian from those bytes. -/
def parse_root_cursor (m : NP_Memory) : NP_Cursor :=
  { buff_addr := 0, schema_addr := 0,
    value := { shape := PtrShape.scalar, value_address := m.read_address 0 } }

/-- Claim C1: on a fresh empty buffer with a single bool root, set at the root
followed by get at the root returns exactly the boolean that was written, for
both booleans. -/
theorem C1_bool_root_roundtrip : ∀ v : Bool,
    ∃ c m, bool_set_value (parse_root_cursor empty_bool_buffer) empty_bool_buffer v =
        SetResult.ok c m ∧
      bool_into_value (parse_root_cursor m) m = Except.ok (some v) := by
  intro v
  cases v
  · exact ⟨_, _, rfl, by decide⟩
  · exact ⟨_, _, rfl, by decide⟩

/-- Helper: the two header bytes written by `write_address` do not disturb any
byte at or past offset `addr + 2`. -/
theorem write_address_get?_of_le (m : NP_Memory) (a v i : Nat) (h : a + 2 ≤ i) :
    (m.write_address a v).bytes.get? i = m.bytes.get? i := by
  unfold NP_Memory.write_address
  rw [List.get?_eq_getElem?, List.getElem?_set_ne (by omega),
    List.getElem?_set_ne (by omega), ← List.get?_eq_getElem?]

/-- Helper: `write_address` never changes the length of the buffer. -/
theorem write_address_length (m : NP_Memory) (a v : Nat) :
    (m.write_address a v).bytes.length = m.bytes.length := by
  simp [NP_Memory.write_address]

/-- Helper: reading a freshly appended byte at the old length. -/
theorem get?_append_singleton (l : List Nat) (b : Nat) :
    (l ++ [b]).get? l.length = some b := by
  rw [List.get?_eq_getElem?, List.getElem?_append_right (Nat.le_refl _)]
  simp

/-- Helper: every in-bounds index of a list holds some element. -/
theorem exists_get?_of_lt {α : Type} (l : List α) (i : Nat) (h : i < l.length) :
    ∃ b, l.get? i = some b :=
  ⟨l.get ⟨i, h⟩, List.get?_eq_get h⟩

/-- Claim C2: the bool codec stores its payload as exactly one byte holding 1
for true and 0 for false, both when first allocating (the buffer grows by one
byte whose value is the encoding) and when overwriting in place; and both
schema front ends use the default byte 0 for no default, 1 for default true
and 2 for default false. -/
theorem C2_bool_one_byte_and_default_bytes :
    (∀ (c : NP_Cursor) (m : NP_Memory) (v : Bool),
      c.value.get_value_address = 0 →
      c.buff_addr + 2 ≤ m.bytes.length →
      m.bytes.length + 1 ≤ m.max_size →
      bool_set_value c m v =
        SetResult.ok { c with value := c.value.update_value_address m.bytes.length }
          (NP_Memory.write_address { m with bytes := m.bytes ++ [if v then 1 else 0] }
            c.buff_addr m.bytes.length) ∧
      (NP_Memory.write_address { m with bytes := m.bytes ++ [if v then 1 else 0] }
          c.buff_addr m.bytes.length).bytes.get? m.bytes.length =
        some (if v then 1 else 0) ∧
      (NP_Memory.write_address { m with bytes := m.bytes ++ [if v then 1 else 0] }
          c.buff_addr m.bytes.length).bytes.length = m.bytes.length + 1) ∧
    (∀ (c : NP_Cursor) (m : NP_Memory) (v : Bool),
      c.value.get_value_address ≠ 0 →
      c.value.get_value_address < m.bytes.length →
      bool_set_value c m v =
        SetResult.ok c
          { m with bytes := m.bytes.set c.value.get_value_address (if v then 1 else 0) } ∧
      (m.bytes.set c.value.get_value_address (if v then 1 else 0)).get?
          c.value.get_value_address = some (if v then 1 else 0)) ∧
    (∀ schema,
      bool_from_json_to_schema schema NP_JSON.jtrue =
        Except.ok (true, [boolean_type_key, 1],
          schema ++ [NP_Parsed_Schema.Boolean (some true)]) ∧
      bool_from_json_to_schema schema NP_JSON.jfalse =
        Except.ok (true, [boolean_type_key, 2],
          schema ++ [NP_Parsed_Schema.Boolean (some false)]) ∧
      bool_from_json_to_schema schema NP_JSON.jnull =
        Except.ok (true, [boolean_type_key, 0],
          schema ++ [NP_Parsed_Schema.Boolean none]) ∧
      (∀ n, bool_from_json_to_schema schema (NP_JSON.jnumber n) =
        Except.ok (true, [boolean_type_key, 0],
          schema ++ [NP_Parsed_Schema.Boolean none])) ∧
      (∀ s, bool_from_json_to_schema schema (NP_JSON.jstring s) =
        Except.ok (true, [boolean_type_key, 0],
          schema ++ [NP_Parsed_Schema.Boolean none]))) ∧
    (∀ schema address bytes,
      (bytes.get? address = some 0 →
        bool_from_bytes_to_schema schema address bytes =
          some (true, schema ++ [NP_Parsed_Schema.Boolean none])) ∧
      (bytes.get? address = some 1 →
        bool_from_bytes_to_schema schema address bytes =
          some (true, schema ++ [NP_Parsed_Schema.Boolean (some true)])) ∧
      (bytes.get? address = some 2 →
        bool_from_bytes_to_schema schema address bytes =
          some (true, schema ++ [NP_Parsed_Schema.Boolean (some false)]))) := by
  refine ⟨?_, ?_, ?_, ?_⟩
  · intro c m v h0 h1 h2
    refine ⟨?_, ?_, ?_⟩
    · unfold bool_set_value NP_Memory.malloc_borrow
      simp only [List.length_cons, List.length_nil]
      rw [if_neg (not_not_intro h0), if_neg (by omega)]
    · rw [write_address_get?_of_le _ _ _ _ (by omega), get?_append_singleton]
    · rw [write_address_length]
      simp
  · intro c m v h0 h1
    refine ⟨?_, ?_⟩
    · unfold bool_set_value
      rw [if_pos h0, if_pos h1]
    · rw [List.get?_eq_getElem?, List.getElem?_set_eq_of_lt _ h1]
  · intro schema
    exact ⟨rfl, rfl, rfl, fun n => rfl, fun s => rfl⟩
  · intro schema address bytes
    refine ⟨fun h => ?_, fun h => ?_, fun h => ?_⟩ <;>
      · rw [List.get?_eq_getElem?] at h
        simp [bool_from_bytes_to_schema, h]

/-- Shared sample inputs for the concrete witnesses below: a root cursor with
no stored value over a four-byte header, and a cursor whose value lives at
offset 4 of a five-byte buffer. -/
def sample_fresh_cursor : NP_Cursor :=
  { buff_addr := 0, schema_addr := 0,
    value := { shape := PtrShape.scalar, value_address := 0 } }

/-- Sample buffer holding a stored bool payload byte at offset 4. -/
def sample_filled_mem : NP_Memory :=
  { bytes := [0, 4, 0, 0, 1], max_size := 65535 }

/-- Sample cursor whose pointer cell holds addr_value 4. -/
def sample_filled_cursor : NP_Cursor :=
  { buff_addr := 0, schema_addr := 0,
    value := { shape := PtrShape.scalar, value_address := 4 } }

/-- Witness for C2 at concrete inputs: a fresh set of `true` on the empty
buffer, an in-place overwrite with `false`, and the bytes-to-schema parser at
default byte 2. -/
theorem C2_bool_one_byte_and_default_bytes_witness :
    (bool_set_value sample_fresh_cursor empty_bool_buffer true =
        SetResult.ok
          { sample_fresh_cursor with
            value := sample_fresh_cursor.value.update_value_address 4 }
          (NP_Memory.write_address { empty_bool_buffer with bytes := [0, 0, 0, 0, 1] } 0 4) ∧
      (NP_Memory.write_address { empty_bool_buffer with bytes := [0, 0, 0, 0, 1] }
          0 4).bytes.get? 4 = some 1 ∧
      (NP_Memory.write_address { empty_bool_buffer with bytes := [0, 0, 0, 0, 1] }
          0 4).bytes.length = 5) ∧
    (bool_set_value sample_filled_cursor sample_filled_mem false =
        SetResult.ok sample_filled_cursor
          { sample_filled_mem with bytes := [0, 4, 0, 0, 0] } ∧
      (([0, 4, 0, 0, 1] : List Nat).set 4 0).get? 4 = some 0) ∧
    bool_from_bytes_to_schema [] 0 [2] =
      some (true, [NP_Parsed_Schema.Boolean (some false)]) := by
  refine ⟨?_, ?_, ?_⟩
  · exact C2_bool_one_byte_and_default_bytes.1 sample_fresh_cursor empty_bool_buffer true
      (by decide) (by decide) (by decide)
  · exact C2_bool_one_byte_and_default_bytes.2.1 sample_filled_cursor sample_filled_mem false
      (by decide) (by decide)
  · exact (C2_bool_one_byte_and_default_bytes.2.2.2 [] 0 [2]).2.2 (by decide)

/-- Claim C3: when the pointer cell already holds a nonzero, in-bounds
`addr_value`, bool set overwrites exactly the one payload byte in place: the
cursor (hence `addr_value` and the whole pointer-cell view) comes back
unchanged, the buffer keeps its length (no allocation), and every byte other
than the payload byte is untouched. -/
theorem C3_bool_set_in_place_frame (c : NP_Cursor) (m : NP_Memory) (v : Bool)
    (h0 : c.value.get_value_address ≠ 0)
    (h1 : c.value.get_value_address < m.bytes.length) :
    bool_set_value c m v =
      SetResult.ok c
        { m with bytes := m.bytes.set c.value.get_value_address (if v then 1 else 0) } ∧
    (∀ i, i ≠ c.value.get_value_address →
      (m.bytes.set c.value.get_value_address (if v then 1 else 0)).get? i = m.bytes.get? i) ∧
    (m.bytes.set c.value.get_value_address (if v then 1 else 0)).length = m.bytes.length := by
  refine ⟨?_, ?_, ?_⟩
  · unfold bool_set_value
    rw [if_pos h0, if_pos h1]
  · intro i hi
    rw [List.get?_eq_getElem?, List.getElem?_set_ne (fun hc => hi hc.symm),
      ← List.get?_eq_getElem?]
  · exact List.length_set m.bytes _ _

/-- Witness for C3: overwriting the stored payload at offset 4 with `true`
touches only byte 4 of the five-byte buffer. -/
theorem C3_bool_set_in_place_frame_witness :
    bool_set_value sample_filled_cursor sample_filled_mem true =
      SetResult.ok sample_filled_cursor
        { sample_filled_mem with bytes := [0, 4, 0, 0, 1] } ∧
    (∀ i, i ≠ 4 → (([0, 4, 0, 0, 1] : List Nat).set 4 1).get? i =
      ([0, 4, 0, 0, 1] : List Nat).get? i) ∧
    (([0, 4, 0, 0, 1] : List Nat).set 4 1).length = 5 :=
  C3_bool_set_in_place_frame sample_filled_cursor sample_filled_mem true
    (by decide) (by decide)

/-- Modelled from the spec: the buffer-level get for bool (buffer.rs is not
part of the sampled core) layers the schema default over `into_value` — the
default applies exactly when the codec reads no stored value (section 4.4 get
contract together with section 9, "defaults apply only in the former case"). -/
def np_get_bool (c : NP_Cursor) (m : NP_Memory) (schema : NP_Parsed_Schema) :
    Except NP_Error (Option Bool) :=
  match bool_into_value c m with
  | Except.error e => Except.error e
  | Except.ok (some v) => Except.ok (some v)
  | Except.ok none => Except.ok (bool_schema_default schema)

/-- Helper: get on an absent value (addr_value 0) returns the schema default. -/
theorem np_get_bool_absent (c : NP_Cursor) (m : NP_Memory) (d : Option Bool)
    (h0 : c.value.get_value_address = 0) :
    np_get_bool c m (NP_Parsed_Schema.Boolean d) = Except.ok d := by
  simp [np_get_bool, bool_into_value, bool_schema_default, h0]

/-- Helper: get on a stored value decodes the payload byte. -/
theorem np_get_bool_present (c : NP_Cursor) (m : NP_Memory) (d : Option Bool) (b : Nat)
    (h0 : c.value.get_value_address ≠ 0)
    (hb : m.bytes.get? c.value.get_value_address = some b) :
    np_get_bool c m (NP_Parsed_Schema.Boolean d) = Except.ok (some (b == 1)) := by
  rw [List.get?_eq_getElem?] at hb
  simp [np_get_bool, bool_into_value, NP_Memory.get_1_byte, h0, hb]

/-- Claim C4: for a bool cursor whose nonzero addr_value is in bounds, get
returns none exactly when addr_value is 0 and the schema has no default; when
addr_value is 0 with a default the default comes back, and when a value is
stored its decoded byte comes back. -/
theorem C4_bool_get_none_iff (c : NP_Cursor) (m : NP_Memory) (d : Option Bool)
    (h : c.value.get_value_address ≠ 0 → c.value.get_value_address < m.bytes.length) :
    (np_get_bool c m (NP_Parsed_Schema.Boolean d) = Except.ok none ↔
      (c.value.get_value_address = 0 ∧ d = none)) ∧
    (c.value.get_value_address = 0 →
      np_get_bool c m (NP_Parsed_Schema.Boolean d) = Except.ok d) ∧
    (c.value.get_value_address ≠ 0 →
      np_get_bool c m (NP_Parsed_Schema.Boolean d) =
        Except.ok (some (m.bytes.getD c.value.get_value_address 0 == 1))) := by
  have present : c.value.get_value_address ≠ 0 →
      np_get_bool c m (NP_Parsed_Schema.Boolean d) =
        Except.ok (some (m.bytes.getD c.value.get_value_address 0 == 1)) := by
    intro h0
    obtain ⟨b, hb⟩ := exists_get?_of_lt m.bytes c.value.get_value_address (h h0)
    rw [np_get_bool_present c m d b h0 hb, List.getD_eq_getD_get?, hb]
    rfl
  refine ⟨⟨?_, ?_⟩, fun h0 => np_get_bool_absent c m d h0, present⟩
  · intro hg
    by_cases h0 : c.value.get_value_address = 0
    · refine ⟨h0, ?_⟩
      have := np_get_bool_absent c m d h0
      rw [this] at hg
      exact Except.ok.inj hg
    · rw [present h0] at hg
      exact absurd (Except.ok.inj hg) (by simp)
  · rintro ⟨h0, hd⟩
    rw [np_get_bool_absent c m d h0, hd]

/-- Witness for C4 at concrete inputs: payload byte 1 at offset 4 decodes to
true, is not none, and an absent value with no default is none. -/
theorem C4_bool_get_none_iff_witness :
    ((np_get_bool sample_filled_cursor sample_filled_mem (NP_Parsed_Schema.Boolean none) =
        Except.ok none ↔ (4 = 0 ∧ (none : Option Bool) = none)) ∧
      ((4 : Nat) = 0 →
        np_get_bool sample_filled_cursor sample_filled_mem (NP_Parsed_Schema.Boolean none) =
          Except.ok none) ∧
      ((4 : Nat) ≠ 0 →
        np_get_bool sample_filled_cursor sample_filled_mem (NP_Parsed_Schema.Boolean none) =
          Except.ok (some (sample_filled_mem.bytes.getD 4 0 == 1)))) :=
  C4_bool_get_none_iff sample_filled_cursor sample_filled_mem none (by decide)

/-- Claim C5: a failing bool set returns the memory exactly as it was — the
only failure the operation can report is the arena's OutOfSpace, and the
failed allocation leaves every byte (the pointer cell included) unchanged, so
the buffer stays readable. -/
theorem C5_bool_set_failure_is_transactional (c : NP_Cursor) (m : NP_Memory) (v : Bool)
    (e : NP_Error) (m2 : NP_Memory)
    (h : bool_set_value c m v = SetResult.err e m2) :
    m2 = m ∧ e = NP_Error.outOfSpace := by
  unfold bool_set_value at h
  by_cases h0 : c.value.get_value_address ≠ 0
  · rw [if_pos h0] at h
    by_cases h1 : c.value.get_value_address < m.bytes.length
    · rw [if_pos h1] at h
      exact absurd h (by simp)
    · rw [if_neg h1] at h
      exact absurd h (by simp)
  · rw [if_neg h0] at h
    unfold NP_Memory.malloc_borrow at h
    by_cases h2 : m.bytes.length + ([if v then 1 else 0] : List Nat).length > m.max_size
    · rw [if_pos h2] at h
      simp only [SetResult.err.injEq] at h
      exact ⟨h.2.symm, h.1.symm⟩
    · rw [if_neg h2] at h
      exact absurd h (by simp)

/-- Sample arena with no room left: four header bytes and capacity four. -/
def sample_full_mem : NP_Memory :=
  { bytes := [0, 0, 0, 0], max_size := 4 }

/-- Witness for C5: a set on a full arena fails with OutOfSpace and hands back
the unchanged memory. -/
theorem C5_bool_set_failure_is_transactional_witness :
    bool_set_value sample_fresh_cursor sample_full_mem true =
      SetResult.err NP_Error.outOfSpace sample_full_mem ∧
    (sample_full_mem = sample_full_mem ∧
      NP_Error.outOfSpace = NP_Error.outOfSpace) :=
  ⟨by decide,
    C5_bool_set_failure_is_transactional sample_fresh_cursor sample_full_mem true
      NP_Error.outOfSpace sample_full_mem (by decide)⟩

/-- `NP_Cursor::parse_cursor_value` as declared (mod.rs lines 331-349), taking
the already-indexed parent schema node: the scalar shape when the parent is
the root (`parent_addr` 0), otherwise the shape dictated by the parent schema
kind — list-item under a list, map-item under a map, scalar under anything
else. -/
def parse_cursor_value (parent_addr : Nat) (parent_schema : NP_Parsed_Schema) : PtrShape :=
  if parent_addr = 0 then
    PtrShape.scalar
  else
    match parent_schema with
    | NP_Parsed_Schema.List _ => PtrShape.listItem
    | NP_Parsed_Schema.Map _ => PtrShape.mapItem
    | _ => PtrShape.scalar

/-- `NP_Cursor::parse_cursor_value` with its schema indexing made explicit:
the index `memory.schema[parent_schema_addr]` at mod.rs line 337 is evaluated
only in the non-root branch and panics (modelled as `none`) when it falls
outside the schema array. -/
def parse_cursor_value_checked (parent_addr : Nat) (parent_schema_addr : Nat)
    (schema : List NP_Parsed_Schema) : Option PtrShape :=
  if parent_addr = 0 then
    some PtrShape.scalar
  else
    match schema.get? parent_schema_addr with
    | none => none
    | some (NP_Parsed_Schema.List _) => some PtrShape.listItem
    | some (NP_Parsed_Schema.Map _) => some PtrShape.mapItem
    | some _ => some PtrShape.scalar

/-- The pointer shape `NP_Cursor::parse` actually computes at mod.rs line 306,
where `parse_cursor_value` receives parse's `parent_schema_addr` in its
`parent_addr` position and parse's `parent_addr` in its `parent_schema_addr`
position (the two usize arguments are transposed at the call site), so the
schema array ends up indexed by the parent's buffer address. -/
def parse_called_shape (parent_addr : Nat) (parent_schema_addr : Nat)
    (schema : List NP_Parsed_Schema) : PtrShape :=
  parse_cursor_value parent_schema_addr
    (schema.getD parent_addr NP_Parsed_Schema.OtherScalar)

/-- `NP_Cursor::parse` (mod.rs lines 292-328): the guard at line 294 panics
(modelled as `none`) when `buff_addr` exceeds the buffer length; the match
scrutinee `memory.schema[schema_addr]` at line 298 panics when `schema_addr`
falls outside the schema array; the leading wildcard arm then registers a
scalar cursor for every node kind, its pointer view built by the call at line
306 — which passes the two parent arguments transposed, so the shape lookup
indexes the schema array by `parent_addr` and short-circuits only when
`parent_schema_addr` is 0 — and its `addr_value` read big-endian from the
pointer cell. -/
def NP_Cursor_parse (buff_addr : Nat) (schema_addr : Nat) (parent_addr : Nat)
    (parent_schema_addr : Nat) (m : NP_Memory) (schema : List NP_Parsed_Schema) :
    Option NP_Cursor :=
  if buff_addr > m.bytes.length then
    none
  else
    match schema.get? schema_addr with
    | none => none
    | some _ =>
      match parse_cursor_value_checked parent_schema_addr parent_addr schema with
      | none => none
      | some shape =>
        some { buff_addr := buff_addr, schema_addr := schema_addr,
               value := { shape := shape,
                          value_address := m.read_address buff_addr } }

/-- Counterexample to claim C6: ill-formed bytes do not produce a Corrupt
error — they panic.  The bytes-to-schema parser hits the source's
`unreachable` arm on a default byte of 3 (modelled as `none`), and
`NP_Cursor::parse` hits its explicit panic guard when the pointer offset 10
lies beyond a four-byte buffer; neither returns an error value. -/
theorem C6_counterexample :
    bool_from_bytes_to_schema [] 0 [3] = none ∧
    NP_Cursor_parse 10 0 0 0 { bytes := [0, 0, 0, 0], max_size := 65535 }
      [NP_Parsed_Schema.Boolean none] = none := by
  decide

/-- Claim C6 as amended: within the format and schema bounds nothing panics —
parse succeeds whenever `buff_addr` is at most the buffer length, the
cursor's schema index is inside the schema array, and the transposed shape
lookup either short-circuits (`parent_schema_addr` 0) or indexes the schema
array inside its bounds with `parent_addr`; the bool schema parser succeeds
whenever the default byte is 0, 1 or 2; and bool reads never fail on any
buffer.  Outside those bounds the code panics (explicit `panic` and
`unreachable` guards and unchecked indexing) rather than returning a Corrupt
error. -/
theorem C6_amended_no_panic_in_bounds :
    (∀ (ba sa pa psa : Nat) (m : NP_Memory) (schema : List NP_Parsed_Schema),
      ba ≤ m.bytes.length → sa < schema.length → (psa = 0 ∨ pa < schema.length) →
      (NP_Cursor_parse ba sa pa psa m schema).isSome) ∧
    (∀ (schema : List NP_Parsed_Schema) (address b : Nat) (bytes : List Nat),
      bytes.get? address = some b → b ≤ 2 →
      (bool_from_bytes_to_schema schema address bytes).isSome) ∧
    (∀ (c : NP_Cursor) (m : NP_Memory), ∃ r, bool_into_value c m = Except.ok r) := by
  refine ⟨?_, ?_, ?_⟩
  · intro ba sa pa psa m schema h hs hp
    obtain ⟨node, hn⟩ := exists_get?_of_lt schema sa hs
    obtain ⟨shape, hsh⟩ : ∃ shape, parse_cursor_value_checked psa pa schema = some shape := by
      unfold parse_cursor_value_checked
      by_cases hz : psa = 0
      · exact ⟨PtrShape.scalar, by rw [if_pos hz]⟩
      · rw [if_neg hz]
        rcases hp with hp | hp
        · exact absurd hp hz
        · obtain ⟨pnode, hpn⟩ := exists_get?_of_lt schema pa hp
          rw [hpn]
          cases pnode
          all_goals exact ⟨_, rfl⟩
    unfold NP_Cursor_parse
    rw [if_neg (Nat.not_lt.mpr h), hn, hsh]
    rfl
  · intro schema address b bytes hb h2
    rw [List.get?_eq_getElem?] at hb
    interval_cases b <;> simp [bool_from_bytes_to_schema, hb]
  · intro c m
    unfold bool_into_value NP_Memory.get_1_byte
    by_cases h0 : c.value.get_value_address = 0
    · exact ⟨none, by rw [if_pos h0]⟩
    · rw [if_neg h0]
      cases hx : m.bytes.get? c.value.get_value_address with
      | none => exact ⟨none, rfl⟩
      | some x => exact ⟨some (x == 1), rfl⟩

/-- Witness for the amended C6 at concrete inputs: parse succeeds for the
root cursor (offset 0, schema index 0, root parent) over a four-byte buffer
and a one-node schema, the schema parser succeeds on default byte 2, and a
read on the sample buffer does not fail. -/
theorem C6_amended_no_panic_in_bounds_witness :
    (NP_Cursor_parse 0 0 0 0 empty_bool_buffer [NP_Parsed_Schema.Boolean none]).isSome ∧
    (bool_from_bytes_to_schema [] 0 [2]).isSome ∧
    ∃ r, bool_into_value sample_filled_cursor sample_filled_mem = Except.ok r :=
  ⟨C6_amended_no_panic_in_bounds.1 0 0 0 0 empty_bool_buffer
      [NP_Parsed_Schema.Boolean none] (by decide) (by decide) (Or.inl rfl),
    C6_amended_no_panic_in_bounds.2.1 [] 0 2 [2] (by decide) (by decide),
    C6_amended_no_panic_in_bounds.2.2 sample_filled_cursor sample_filled_mem⟩

/-- Claim C7 (code bug): the cell sizes of the three shapes are 2, 5 and 8
bytes as claimed, and `parse_cursor_value` as declared maps a root, table,
tuple or scalar parent to the scalar shape, a list parent to the list-item
shape and a map parent to the map-item shape — but at the call site in
`NP_Cursor::parse` the two parent arguments are transposed, so a child cursor
under a root-level list (parent cell at buffer address 4, parent schema index
0 holding the list node) is built with a 2-byte scalar view where the
declaration (and the claim) prescribe the 5-byte list-item view. -/
theorem C7_pointer_shape_by_parent_kind_callsite_bug :
    PtrShape.scalar.size = 2 ∧ PtrShape.listItem.size = 5 ∧ PtrShape.mapItem.size = 8 ∧
    (∀ s, parse_cursor_value 0 s = PtrShape.scalar) ∧
    (∀ pa, pa ≠ 0 →
      (∀ cols, parse_cursor_value pa (NP_Parsed_Schema.Table cols) = PtrShape.scalar) ∧
      (∀ vals, parse_cursor_value pa (NP_Parsed_Schema.Tuple vals) = PtrShape.scalar) ∧
      (∀ d, parse_cursor_value pa (NP_Parsed_Schema.Boolean d) = PtrShape.scalar) ∧
      parse_cursor_value pa NP_Parsed_Schema.OtherScalar = PtrShape.scalar ∧
      (∀ o, parse_cursor_value pa (NP_Parsed_Schema.List o) = PtrShape.listItem) ∧
      (∀ v, parse_cursor_value pa (NP_Parsed_Schema.Map v) = PtrShape.mapItem)) ∧
    parse_cursor_value 4
        (([NP_Parsed_Schema.List 1, NP_Parsed_Schema.Boolean none] : List NP_Parsed_Schema).getD
          0 NP_Parsed_Schema.OtherScalar) = PtrShape.listItem ∧
    parse_called_shape 4 0
        [NP_Parsed_Schema.List 1, NP_Parsed_Schema.Boolean none] = PtrShape.scalar := by
  refine ⟨rfl, rfl, rfl, fun s => rfl, ?_, by decide, by decide⟩
  intro pa hpa
  exact ⟨fun cols => by simp [parse_cursor_value, hpa],
    fun vals => by simp [parse_cursor_value, hpa],
    fun d => by simp [parse_cursor_value, hpa],
    by simp [parse_cursor_value, hpa],
    fun o => by simp [parse_cursor_value, hpa],
    fun v => by simp [parse_cursor_value, hpa]⟩

/-- Witness for C7 discharging its parent-address hypothesis at 4. -/
theorem C7_pointer_shape_by_parent_kind_callsite_bug_witness :
    (∀ cols, parse_cursor_value 4 (NP_Parsed_Schema.Table cols) = PtrShape.scalar) ∧
    (∀ vals, parse_cursor_value 4 (NP_Parsed_Schema.Tuple vals) = PtrShape.scalar) ∧
    (∀ d, parse_cursor_value 4 (NP_Parsed_Schema.Boolean d) = PtrShape.scalar) ∧
    parse_cursor_value 4 NP_Parsed_Schema.OtherScalar = PtrShape.scalar ∧
    (∀ o, parse_cursor_value 4 (NP_Parsed_Schema.List o) = PtrShape.listItem) ∧
    (∀ v, parse_cursor_value 4 (NP_Parsed_Schema.Map v) = PtrShape.mapItem) :=
  C7_pointer_shape_by_parent_kind_callsite_bug.2.2.2.2.1 4 (by decide)

/-- `NP_Cursor::calc_size` (mod.rs lines 456-505) specialised to a Boolean
schema node: a virtual cursor is 0; a real cursor contributes its pointer-cell
size, returned alone when `addr_value` is 0 and otherwise summed with the
bool codec's value size. -/
def NP_Cursor_calc_size (cursor_addr : NP_Cursor_Addr) (cursor : NP_Cursor) : Nat :=
  match cursor_addr with
  | NP_Cursor_Addr.Virtual => 0
  | NP_Cursor_Addr.Real _ =>
    if cursor.value.get_value_address = 0 then
      cursor.value.shape.size
    else
      cursor.value.shape.size + bool_get_size cursor

/-- Claim C8: for every bool cursor the size is the pointer-cell size plus the
value allocation size — 0 when the value is absent and 1 byte when present —
and a virtual cursor contributes 0 in total. -/
theorem C8_bool_calc_size_decomposition :
    (∀ c : NP_Cursor, NP_Cursor_calc_size NP_Cursor_Addr.Virtual c = 0) ∧
    (∀ (a : Nat) (c : NP_Cursor),
      NP_Cursor_calc_size (NP_Cursor_Addr.Real a) c =
        c.value.shape.size + (if c.value.get_value_address = 0 then 0 else 1)) := by
  refine ⟨fun c => rfl, fun a c => ?_⟩
  by_cases h0 : c.value.get_value_address = 0 <;>
    simp [NP_Cursor_calc_size, bool_get_size, h0]

/-- Modelled from the spec: the compaction contract for a scalar, written from
the words of section 4.4 — read the source value, write it into the
destination buffer when one is present, and hand the destination cursor back
untouched when the source holds nothing. -/
def compact_via_get_then_set (from_cursor : NP_Cursor) (from_memory : NP_Memory)
    (to_cursor : NP_Cursor) (to_memory : NP_Memory) : SetResult :=
  match bool_into_value from_cursor from_memory with
  | Except.ok (some v) => bool_set_value to_cursor to_memory v
  | Except.ok none => SetResult.ok to_cursor to_memory
  | Except.error e => SetResult.err e to_memory

/-- Claim C9: the codec's `do_compact` coincides with the spec's
read-then-write composite on every pair of cursors and memories; in
particular an absent source value returns the destination cursor unchanged
and a present source value is written into the destination with set. -/
theorem C9_compact_is_get_then_set :
    (∀ (fc : NP_Cursor) (fm : NP_Memory) (tc : NP_Cursor) (tm : NP_Memory),
      bool_do_compact fc fm tc tm = compact_via_get_then_set fc fm tc tm) ∧
    (∀ (fc : NP_Cursor) (fm : NP_Memory) (tc : NP_Cursor) (tm : NP_Memory),
      bool_into_value fc fm = Except.ok none →
      bool_do_compact fc fm tc tm = SetResult.ok tc tm) ∧
    (∀ (fc : NP_Cursor) (fm : NP_Memory) (tc : NP_Cursor) (tm : NP_Memory) (v : Bool),
      bool_into_value fc fm = Except.ok (some v) →
      bool_do_compact fc fm tc tm = bool_set_value tc tm v) := by
  refine ⟨?_, ?_, ?_⟩
  · intro fc fm tc tm
    unfold bool_do_compact compact_via_get_then_set
    cases h : bool_into_value fc fm with
    | error e => rfl
    | ok r => cases r <;> rfl
  · intro fc fm tc tm h
    unfold bool_do_compact
    rw [h]
  · intro fc fm tc tm v h
    unfold bool_do_compact
    rw [h]

/-- Witness for C9 at concrete inputs: compacting an absent source (the fresh
root cursor) leaves the destination cursor untouched, and compacting the
sample stored value writes it into the destination. -/
theorem C9_compact_is_get_then_set_witness :
    bool_do_compact sample_fresh_cursor empty_bool_buffer sample_filled_cursor
        sample_filled_mem =
      SetResult.ok sample_filled_cursor sample_filled_mem ∧
    bool_do_compact sample_filled_cursor sample_filled_mem sample_fresh_cursor
        empty_bool_buffer =
      bool_set_value sample_fresh_cursor empty_bool_buffer true :=
  ⟨C9_compact_is_get_then_set.2.1 sample_fresh_cursor empty_bool_buffer
      sample_filled_cursor sample_filled_mem (by decide),
    C9_compact_is_get_then_set.2.2 sample_filled_cursor sample_filled_mem
      sample_fresh_cursor empty_bool_buffer true (by decide)⟩

/-- Claim C10: for a stored payload byte at a valid in-bounds address, the
bool read decodes byte 1 as true and every other byte value as false, and no
payload byte value makes the read fail. -/
theorem C10_bool_decode_any_byte (c : NP_Cursor) (m : NP_Memory) (b : Nat)
    (h0 : c.value.get_value_address ≠ 0)
    (hb : m.bytes.get? c.value.get_value_address = some b) :
    bool_into_value c m = Except.ok (some (b == 1)) ∧
    (b = 1 → bool_into_value c m = Except.ok (some true)) ∧
    (b ≠ 1 → bool_into_value c m = Except.ok (some false)) ∧
    (∀ e, bool_into_value c m ≠ Except.error e) := by
  have base : bool_into_value c m = Except.ok (some (b == 1)) := by
    rw [List.get?_eq_getElem?] at hb
    simp [bool_into_value, NP_Memory.get_1_byte, h0, hb]
  refine ⟨base, fun h1 => ?_, fun h1 => ?_, fun e => ?_⟩
  · rw [base, h1]
    rfl
  · rw [base]
    simp [h1]
  · rw [base]
    simp

/-- Sample buffer whose stored bool payload byte at offset 4 is 2, a value
outside {0, 1}. -/
def sample_byte2_mem : NP_Memory :=
  { bytes := [0, 4, 0, 0, 2], max_size := 65535 }

/-- Witness for C10 at the concrete payload byte 2: the read succeeds and
decodes to false. -/
theorem C10_bool_decode_any_byte_witness :
    bool_into_value sample_filled_cursor sample_byte2_mem = Except.ok (some (2 == 1)) ∧
    ((2 : Nat) = 1 →
      bool_into_value sample_filled_cursor sample_byte2_mem = Except.ok (some true)) ∧
    ((2 : Nat) ≠ 1 →
      bool_into_value sample_filled_cursor sample_byte2_mem = Except.ok (some false)) ∧
    (∀ e, bool_into_value sample_filled_cursor sample_byte2_mem ≠ Except.error e) :=
  C10_bool_decode_any_byte sample_filled_cursor sample_byte2_mem 2 (by decide) (by decide)
